import Mathlib

/-!
# Crystal Loom storefront: pricing, order placement and one-time-code reset

A shallow embedding of `src/discounts.js` and of the order and password-reset
handlers of `src/server.js`, followed by the properties proved about them.

Conventions of the embedding.

* JavaScript numbers are exact: a finite number is a rational (`ℚ`), whole
  amounts are integers (`ℤ`), and the three IEEE special results of a division
  (`NaN`, `Infinity`, `-Infinity`) are the extra constructors of `Ext`.
  Binary rounding of doubles and the negative zero are not represented.
* External collaborators (the persistence gateway, the mail relay, the
  analytics sink, the UUID and random sources, the clock) are explicit inputs:
  each handler takes the outcome every call it makes will have.
* Mutable state (the tables, the OTP map) is passed in and returned.
-/

namespace Crystalloom

/-! ## Numbers -/

/-- Result of a JavaScript numeric expression over `α`: a finite value, or one
of the special values a division by zero produces. -/
inductive Ext (α : Type) where
  | fin (a : α)
  | nan
  | posInf
  | negInf
  deriving DecidableEq, Repr

/-- `Math.round` on a finite number: the nearest integer, ties towards
`+Infinity`, computed as the floor of `x + 1/2`. -/
def mathRound (x : ℚ) : ℤ :=
  Rat.floor (x + 1 / 2)

/-- JavaScript `a / b` on finite operands. -/
def jsDiv (a b : ℚ) : Ext ℚ :=
  if b ≠ 0 then Ext.fin (a / b)
  else if 0 < a then Ext.posInf
  else if a < 0 then Ext.negInf
  else Ext.nan

/-- JavaScript `x * k` for a finite right operand `k`. -/
def jsMul (x : Ext ℚ) (k : ℚ) : Ext ℚ :=
  match x with
  | Ext.fin a => Ext.fin (a * k)
  | Ext.nan => Ext.nan
  | Ext.posInf => if 0 < k then Ext.posInf else if k < 0 then Ext.negInf else Ext.nan
  | Ext.negInf => if 0 < k then Ext.negInf else if k < 0 then Ext.posInf else Ext.nan

/-- `Math.round` on any number: `NaN` and the infinities are returned as they
are. -/
def jsRound (x : Ext ℚ) : Ext ℤ :=
  match x with
  | Ext.fin a => Ext.fin (mathRound a)
  | Ext.nan => Ext.nan
  | Ext.posInf => Ext.posInf
  | Ext.negInf => Ext.negInf

/-- Text a template literal produces for a whole number or a special value. -/
def jsShow (x : Ext ℤ) : String :=
  match x with
  | Ext.fin n => toString n
  | Ext.nan => "NaN"
  | Ext.posInf => "Infinity"
  | Ext.negInf => "-Infinity"

/-! ## `discounts.js` -/

/-- A product record: `discount` is `none` when the field is `undefined`. -/
structure Product where
  id : ℤ
  name : String
  price : ℤ
  discount : Option ℚ
  deriving DecidableEq

/-- `getDiscountPercent(productId)`: `0.1 + (productId * 0.02)`. -/
def getDiscountPercent (productId : ℤ) : ℚ :=
  0.1 + ((productId : ℚ) * 0.02)

/-- `getDiscountedPrice(product, productId)`. -/
def getDiscountedPrice (product : Product) (productId : ℤ) : ℤ :=
  let discountPercent : ℚ :=
    match product.discount with
    | some d => d / 100
    | none => getDiscountPercent productId
  mathRound ((product.price : ℚ) * (1 - discountPercent))

/-- The local `discountPercent` of `formatPriceDisplay`:
`Math.round(((original - discounted) / original) * 100)`. -/
def percentOff (original discounted : ℤ) : Ext ℤ :=
  jsRound (jsMul (jsDiv ((original : ℚ) - (discounted : ℚ)) (original : ℚ)) 100)

/-- `formatPriceDisplay(original, discounted)`: the markup with the two prices
and the percentage. -/
def formatPriceDisplay (original discounted : ℤ) : String :=
  let discountPercent := percentOff original discounted
  "<span class=\"price-original\">₹" ++ toString original
    ++ "</span> <span class=\"price-discounted\">₹" ++ toString discounted
    ++ "</span> <span class=\"discount-percent\">(" ++ jsShow discountPercent
    ++ "% off)</span>"

/-- The `productsData` table. -/
def productsData : List Product :=
  [ { id := 1, name := "Crystal Bracelet", price := 3999, discount := none },
    { id := 2, name := "Gemstone Necklace", price := 6499, discount := none },
    { id := 3, name := "Elegant Ring", price := 4999, discount := none },
    { id := 4, name := "Crystal Earrings", price := 2999, discount := none },
    { id := 5, name := "Healing Pendant", price := 3499, discount := none },
    { id := 6, name := "Crystal Choker", price := 5999, discount := none },
    { id := 7, name := "Royal Emerald Ring", price := 7999, discount := none },
    { id := 8, name := "Diamond Stud Earrings", price := 9999, discount := none },
    { id := 9, name := "Pearl Necklace", price := 5499, discount := none } ]

/-- `getProductById(id)`. -/
def getProductById (id : ℤ) : Option Product :=
  productsData.find? (fun p => p.id == id)

/-- `getDiscountedPriceById(id)`. -/
def getDiscountedPriceById (id : ℤ) : ℤ :=
  match getProductById id with
  | some product => getDiscountedPrice product id
  | none => 0

/-! ## `server.js`: responses and tables -/

/-- Body of a JSON response. -/
inductive Body where
  | order (orderId invoice : String)
  | message (text : String)
  | error (text : String)
  deriving DecidableEq, Repr

/-- What a handler sends back: the HTTP status (`res.json` alone is 200) and
the JSON body. -/
structure Response where
  status : Nat
  body : Body
  deriving DecidableEq, Repr

/-- The `shippingInfo` object of an order request. -/
structure ShippingInfo where
  name : String
  address : String
  city : String
  state : String
  pincode : String
  phone : String
  deriving DecidableEq, Repr

/-- One entry of the request's `cart`. -/
structure CartItem where
  name : String
  price : ℤ
  qty : ℤ
  deriving DecidableEq, Repr

/-- Row of table `orders`. -/
structure OrderRow where
  id : String
  user_id : String
  username : String
  total : ℤ
  shipping_info : ShippingInfo
  status : String
  deriving DecidableEq, Repr

/-- Row of table `order_items`. -/
structure OrderItemRow where
  order_id : String
  username : String
  product_name : String
  price : ℤ
  quantity : ℤ
  deriving DecidableEq, Repr

/-- Row of table `order_status_history`. -/
structure StatusRow where
  order_id : String
  status : String
  deriving DecidableEq, Repr

/-- The three tables the order handler writes. -/
structure Store where
  orders : List OrderRow
  order_items : List OrderItemRow
  order_status_history : List StatusRow
  deriving DecidableEq, Repr

/-- Body of `POST /api/order`. -/
structure OrderRequest where
  userId : String
  email : String
  cart : List CartItem
  total : ℤ
  shippingInfo : ShippingInfo
  deriving DecidableEq, Repr

/-- Outcomes of the external calls one run of the order handler makes, in the
order it makes them. An insert or send carries `some message` when it fails. -/
structure OrderEnv where
  uuid : String
  userLookup : Except String String
  orderInsert : Option String
  itemsInsert : Option String
  historyInsert : Option String
  sheets : Option String
  mailUser : Option String
  mailOwner : Option String

/-- A mail handed to `sendOrderConfirmationEmail`: the recipient, the subject
and the fields of `emailOrderData` that tell the two mails of an order apart
(the address fields and the date are copied from the request and the clock). -/
structure Mail where
  recipient : String
  subject : String
  name : String
  orderId : String
  total : ℤ
  itemsHtml : String
  deriving DecidableEq, Repr

/-- Everything a run of the order handler leaves behind. -/
structure OrderOutcome where
  response : Response
  store : Store
  mails : List Mail
  log : List String
  deriving DecidableEq, Repr

/-- `supabase.from(table).insert(rows)`: the rows are appended when the call
succeeds and the table is as it was when it reports an error. -/
def insertRows {α : Type} (outcome : Option String) (table rows : List α) :
    Except String (List α) :=
  match outcome with
  | some e => Except.error e
  | none => Except.ok (table ++ rows)

/-- `generateInvoice(orderId, cart, total, shippingInfo)`. -/
def generateInvoice (orderId : String) (cart : List CartItem) (total : ℤ)
    (shippingInfo : ShippingInfo) : String :=
  let invoice := "Invoice for Order: " ++ orderId ++ "\n\n"
  let invoice := invoice ++ "Shipping Info:\n"
  let invoice := invoice ++ ("Name: " ++ shippingInfo.name ++ "\n")
  let invoice := invoice ++ ("Address: " ++ shippingInfo.address ++ ", " ++ shippingInfo.city
    ++ ", " ++ shippingInfo.state ++ " - " ++ shippingInfo.pincode ++ "\n")
  let invoice := invoice ++ ("Phone: " ++ shippingInfo.phone ++ "\n\n")
  let invoice := invoice ++ "Items:\n"
  let invoice := cart.foldl
    (fun acc item => acc ++ (item.name ++ " - ₹" ++ toString item.price ++ " x "
      ++ toString item.qty ++ " = ₹" ++ toString (item.price * item.qty) ++ "\n"))
    invoice
  let invoice := invoice ++ ("\nTotal: ₹" ++ toString total ++ "\n")
  invoice

/-- `sendOrderConfirmationEmail(to, subject, orderData)`: the whole body is in
a `try`, so a failure of the template read or of the relay ends in a log line
and nothing is thrown to the caller. The result is that log line. -/
def sendOrderConfirmationEmail (outcome : Option String) (mail : Mail) : String :=
  match outcome with
  | none => "Order confirmation email sent to " ++ mail.recipient
  | some e => "Error sending order confirmation email: " ++ e

/-- The handler of `POST /api/order`. -/
def placeOrder (env : OrderEnv) (req : OrderRequest) (db : Store) : OrderOutcome :=
  let orderId := env.uuid
  match env.userLookup with
  | Except.error userError =>
    { response := { status := 400, body := Body.error userError },
      store := db, mails := [], log := [] }
  | Except.ok username =>
    match insertRows env.orderInsert db.orders
        [{ id := orderId, user_id := req.userId, username := username, total := req.total,
           shipping_info := req.shippingInfo, status := "confirmed" }] with
    | Except.error orderError =>
      { response := { status := 400, body := Body.error orderError },
        store := db, mails := [], log := [] }
    | Except.ok orders =>
      let db1 : Store := { db with orders := orders }
      let orderItems : List OrderItemRow := req.cart.map (fun item =>
        { order_id := orderId, username := username, product_name := item.name,
          price := item.price, quantity := item.qty })
      match insertRows env.itemsInsert db1.order_items orderItems with
      | Except.error itemsError =>
        { response := { status := 400, body := Body.error itemsError },
          store := db1, mails := [], log := [] }
      | Except.ok items =>
        let db2 : Store := { db1 with order_items := items }
        match insertRows env.historyInsert db2.order_status_history
            [{ order_id := orderId, status := "confirmed" }] with
        | Except.error historyError =>
          { response := { status := 400, body := Body.error historyError },
            store := db2, mails := [], log := [] }
        | Except.ok history =>
          let db3 : Store := { db2 with order_status_history := history }
          let sheetsLog : List String :=
            match env.sheets with
            | some sheetsError => ["Sheets integration error: " ++ sheetsError]
            | none => []
          let invoice := generateInvoice orderId req.cart req.total req.shippingInfo
          let itemsHtml := String.join (req.cart.map (fun item =>
            "<tr><td>" ++ item.name ++ "</td><td>₹" ++ toString item.price ++ "</td><td>"
              ++ toString item.qty ++ "</td><td>₹" ++ toString (item.price * item.qty)
              ++ "</td></tr>"))
          let userMail : Mail :=
            { recipient := req.email, subject := "Order Confirmation", name := req.shippingInfo.name,
              orderId := orderId, total := req.total, itemsHtml := itemsHtml }
          let ownerMail : Mail :=
            { userMail with recipient := "crystalloom9@gmail.com", subject := "New Order Received",
                            name := "Admin" }
          { response := { status := 200, body := Body.order orderId invoice },
            store := db3,
            mails := [userMail, ownerMail],
            log := sheetsLog ++ [sendOrderConfirmationEmail env.mailUser userMail,
                                 sendOrderConfirmationEmail env.mailOwner ownerMail] }

/-! ## `server.js`: one-time codes -/

/-- Value stored in `otpStore` for an email. -/
structure OtpEntry where
  otp : String
  expires : ℤ
  deriving DecidableEq, Repr

/-- The `otpStore` map, as the list of its entries in insertion order. -/
abbrev OtpStore := List (String × OtpEntry)

/-- `otpStore.get(email)`: `none` stands for `undefined`. -/
def otpGet (otpStore : OtpStore) (email : String) : Option OtpEntry :=
  match otpStore with
  | [] => none
  | (key, entry) :: rest => if key = email then some entry else otpGet rest email

/-- `otpStore.delete(email)`. -/
def otpDelete (otpStore : OtpStore) (email : String) : OtpStore :=
  otpStore.filter (fun kv => kv.1 ≠ email)

/-- `otpStore.set(email, entry)`: the value of an existing key is replaced
where the key stands, a new key goes to the end. -/
def otpSet (otpStore : OtpStore) (email : String) (entry : OtpEntry) : OtpStore :=
  match otpStore with
  | [] => [(email, entry)]
  | (key, old) :: rest =>
    if key = email then (email, entry) :: rest
    else (key, old) :: otpSet rest email entry

/-- `Math.floor` on a finite number. -/
def mathFloor (x : ℚ) : ℤ :=
  Rat.floor x

/-- Row of table `users`. -/
structure UserRow where
  name : String
  email : String
  password : String
  deriving DecidableEq, Repr

/-- Outcomes of the external calls one run of the forgot-password handler
makes: the user lookup (`error`, or `data` that may be null), `Math.random()`,
`Date.now()` and the mail relay. -/
structure ForgotEnv where
  userLookup : Except String (Option String)
  random : ℚ
  now : ℤ
  sendMail : Option String

/-- What a run of a one-time-code handler leaves behind. -/
structure OtpOutcome where
  response : Response
  otpStore : OtpStore
  deriving DecidableEq, Repr

/-- The handler of `POST /api/forgot-password`. -/
def forgotPassword (env : ForgotEnv) (email : String) (otpStore : OtpStore) : OtpOutcome :=
  match env.userLookup with
  | Except.error _ =>
    { response := { status := 404, body := Body.error "User not found" }, otpStore := otpStore }
  | Except.ok none =>
    { response := { status := 404, body := Body.error "User not found" }, otpStore := otpStore }
  | Except.ok (some _) =>
    let otp := toString (mathFloor (100000 + env.random * 900000))
    let expires := env.now + 10 * 60 * 1000
    let otpStore := otpSet otpStore email { otp := otp, expires := expires }
    match env.sendMail with
    | some _ =>
      { response := { status := 500, body := Body.error "Failed to send OTP" },
        otpStore := otpStore }
    | none =>
      { response := { status := 200, body := Body.message "OTP sent to your email" },
        otpStore := otpStore }

/-- The handler of `POST /api/verify-otp`; `now` is `Date.now()`. -/
def verifyOtp (email otp : String) (now : ℤ) (otpStore : OtpStore) : Response :=
  match otpGet otpStore email with
  | none => { status := 400, body := Body.error "Invalid or expired OTP" }
  | some stored =>
    if stored.otp ≠ otp ∨ now > stored.expires then
      { status := 400, body := Body.error "Invalid or expired OTP" }
    else
      { status := 200, body := Body.message "OTP verified" }

/-- What a run of the reset-password handler leaves behind. -/
structure ResetOutcome where
  response : Response
  otpStore : OtpStore
  users : List UserRow
  deriving DecidableEq, Repr

/-- `supabase.from('users').update({ password }).eq('email', email)`: on
success every row with that email gets the password, on error the table is as
it was. -/
def updatePassword (outcome : Option String) (users : List UserRow)
    (email newPassword : String) : Except String (List UserRow) :=
  match outcome with
  | some e => Except.error e
  | none =>
    Except.ok (users.map (fun u => if u.email = email then { u with password := newPassword } else u))

/-- The handler of `POST /api/reset-password`; `now` is `Date.now()` and
`updateOutcome` is what the password update will report. -/
def resetPassword (updateOutcome : Option String) (email otp newPassword : String) (now : ℤ)
    (otpStore : OtpStore) (users : List UserRow) : ResetOutcome :=
  match otpGet otpStore email with
  | none =>
    { response := { status := 400, body := Body.error "Invalid or expired OTP" },
      otpStore := otpStore, users := users }
  | some stored =>
    if stored.otp ≠ otp ∨ now > stored.expires then
      { response := { status := 400, body := Body.error "Invalid or expired OTP" },
        otpStore := otpStore, users := users }
    else
      match updatePassword updateOutcome users email newPassword with
      | Except.error _ =>
        { response := { status := 500, body := Body.error "Failed to reset password" },
          otpStore := otpStore, users := users }
      | Except.ok users1 =>
        { response := { status := 200, body := Body.message "Password reset successfully" },
          otpStore := otpDelete otpStore email, users := users1 }

/-! ## Vocabulary of the statements -/

/-- The text `part` occurs in `text`. -/
def containsText (text part : String) : Prop :=
  part.data <:+: text.data

instance (text part : String) : Decidable (containsText text part) := by
  unfold containsText
  infer_instance

/-- The invoice line of one cart item, `name - ₹price x qty = ₹subtotal`. -/
def invoiceLine (name : String) (price qty subtotal : ℤ) : String :=
  name ++ " - ₹" ++ toString price ++ " x " ++ toString qty ++ " = ₹" ++ toString subtotal ++ "\n"

/-- The shipping block of an invoice. -/
def shippingBlock (shippingInfo : ShippingInfo) : String :=
  "Shipping Info:\nName: " ++ shippingInfo.name ++ "\nAddress: " ++ shippingInfo.address ++ ", "
    ++ shippingInfo.city ++ ", " ++ shippingInfo.state ++ " - " ++ shippingInfo.pincode
    ++ "\nPhone: " ++ shippingInfo.phone ++ "\n\n"

/-! # Properties -/

/-! ## Helper lemmas -/

theorem mathRound_eq_floor (x : ℚ) : mathRound x = ⌊x + 1 / 2⌋ := rfl

theorem percentOff_zero (discounted : ℤ) :
    percentOff 0 discounted
      = if discounted = 0 then Ext.nan else if 0 < discounted then Ext.negInf else Ext.posInf := by
  rcases lt_trichotomy discounted 0 with hlt | heq | hgt
  · have h1 : ((discounted : ℚ)) < 0 := by exact_mod_cast hlt
    have h2 : ¬ (0 < discounted) := by omega
    have h3 : discounted ≠ 0 := by omega
    simp [percentOff, jsDiv, jsMul, jsRound, h1, h2, h3]
  · subst heq
    simp [percentOff, jsDiv, jsMul, jsRound]
  · have h1 : (0 : ℚ) < (discounted : ℚ) := by exact_mod_cast hgt
    have h2 : ¬ ((discounted : ℚ) < 0) := not_lt.mpr h1.le
    have h3 : discounted ≠ 0 := by omega
    simp [percentOff, jsDiv, jsMul, jsRound, h1, h2, h3, hgt]

theorem containsText_refl (text : String) : containsText text text :=
  List.infix_refl _

theorem containsText_trans {a b c : String} (hab : containsText a b) (hbc : containsText b c) :
    containsText a c :=
  List.IsInfix.trans hbc hab

theorem containsText_append_left {a p : String} (b : String) (h : containsText a p) :
    containsText (a ++ b) p := by
  unfold containsText at *
  rw [String.data_append]
  exact List.IsInfix.trans h (List.infix_append' [] a.data b.data)

theorem containsText_append_right {b p : String} (a : String) (h : containsText b p) :
    containsText (a ++ b) p := by
  unfold containsText at *
  rw [String.data_append]
  exact List.IsInfix.trans h (List.suffix_append a.data b.data).isInfix

theorem containsText_join {parts : List String} {part : String} (h : part ∈ parts) :
    containsText (String.join parts) part := by
  induction parts with
  | nil => cases h
  | cons head tail ih =>
    have hjoin : String.join (head :: tail) = head ++ String.join tail := by
      apply String.ext
      simp [String.data_join]
    rw [hjoin]
    rcases List.mem_cons.mp h with rfl | hmem
    · exact containsText_append_left _ (containsText_refl _)
    · exact containsText_append_right _ (ih hmem)

theorem foldl_append_eq_join {α : Type} (f : α → String) (items : List α) (init : String) :
    items.foldl (fun acc item => acc ++ f item) init = init ++ String.join (items.map f) := by
  induction items generalizing init with
  | nil =>
    apply String.ext
    simp [String.data_join]
  | cons head tail ih =>
    rw [List.foldl_cons, ih]
    apply String.ext
    simp [String.data_join, String.data_append]

theorem generateInvoice_eq (orderId : String) (cart : List CartItem) (total : ℤ)
    (shippingInfo : ShippingInfo) :
    generateInvoice orderId cart total shippingInfo
      = "Invoice for Order: " ++ orderId ++ "\n\n" ++ shippingBlock shippingInfo ++ "Items:\n"
          ++ String.join (cart.map (fun item =>
              invoiceLine item.name item.price item.qty (item.price * item.qty)))
          ++ "\nTotal: ₹" ++ toString total ++ "\n" := by
  unfold generateInvoice
  simp only []
  rw [foldl_append_eq_join (fun item : CartItem =>
    item.name ++ " - ₹" ++ toString item.price ++ " x " ++ toString item.qty ++ " = ₹"
      ++ toString (item.price * item.qty) ++ "\n")]
  apply String.ext
  simp [String.data_append, shippingBlock, invoiceLine, List.append_assoc]

theorem invoiceLine_contains_name (name : String) (price qty subtotal : ℤ) :
    containsText (invoiceLine name price qty subtotal) name := by
  unfold invoiceLine
  exact containsText_append_left _ (containsText_append_left _ (containsText_append_left _
    (containsText_append_left _ (containsText_append_left _ (containsText_append_left _
      (containsText_append_left _ (containsText_refl _)))))))

theorem otpGet_otpSet (otpStore : OtpStore) (email : String) (entry : OtpEntry) :
    otpGet (otpSet otpStore email entry) email = some entry := by
  induction otpStore with
  | nil => simp [otpSet, otpGet]
  | cons head tail ih =>
    obtain ⟨key, old⟩ := head
    by_cases hkey : key = email
    · simp [otpSet, otpGet, hkey]
    · simp [otpSet, otpGet, hkey, ih]

theorem otpGet_otpDelete (otpStore : OtpStore) (email : String) :
    otpGet (otpDelete otpStore email) email = none := by
  induction otpStore with
  | nil => simp [otpDelete, otpGet]
  | cons head tail ih =>
    obtain ⟨key, old⟩ := head
    by_cases hkey : key = email
    · simpa [otpDelete, hkey] using ih
    · simpa [otpDelete, otpGet, hkey] using ih

/-! ## Pricing -/

/-- C9, the claim refuted: with `original = 0` and `discounted = 0` the
percentage is `NaN`, not 0, and the text reads `NaN% off`; with
`discounted = 3519` it is `-Infinity`. -/
theorem formatPriceDisplay_zero_original_counterexample :
    percentOff 0 0 = Ext.nan
      ∧ percentOff 0 0 ≠ Ext.fin 0
      ∧ formatPriceDisplay 0 0
        = "<span class=\"price-original\">₹0</span> <span class=\"price-discounted\">₹0</span> <span class=\"discount-percent\">(NaN% off)</span>"
      ∧ percentOff 0 3519 = Ext.negInf
      ∧ formatPriceDisplay 0 3519
        = "<span class=\"price-original\">₹0</span> <span class=\"price-discounted\">₹3519</span> <span class=\"discount-percent\">(-Infinity% off)</span>" := by
  have h0 : percentOff 0 0 = Ext.nan := by simpa using percentOff_zero 0
  have h1 : percentOff 0 3519 = Ext.negInf := by simpa using percentOff_zero 3519
  refine ⟨h0, ?_, ?_, h1, ?_⟩
  · rw [h0]
    exact fun h => Ext.noConfusion h
  · simp only [formatPriceDisplay, h0, jsShow]
    rfl
  · simp only [formatPriceDisplay, h1, jsShow]
    rfl

/-- C9 as amended: for `original = 0` the division is not guarded, and the
percentage `formatPriceDisplay` shows is `NaN` when `discounted = 0`,
`-Infinity` when `discounted > 0` and `Infinity` when `discounted < 0`; it is
never a finite number, so never the sentinel 0. -/
theorem formatPriceDisplay_zero_original (discounted : ℤ) :
    percentOff 0 discounted
        = (if discounted = 0 then Ext.nan
            else if 0 < discounted then Ext.negInf else Ext.posInf)
      ∧ (∀ n : ℤ, percentOff 0 discounted ≠ Ext.fin n)
      ∧ formatPriceDisplay 0 discounted
        = "<span class=\"price-original\">₹0</span> <span class=\"price-discounted\">₹"
            ++ toString discounted ++ "</span> <span class=\"discount-percent\">("
            ++ (if discounted = 0 then "NaN"
                else if 0 < discounted then "-Infinity" else "Infinity")
            ++ "% off)</span>" := by
  refine ⟨percentOff_zero discounted, ?_, ?_⟩
  · intro n
    rw [percentOff_zero]
    split_ifs <;> exact fun h => Ext.noConfusion h
  · simp only [formatPriceDisplay, percentOff_zero]
    split_ifs <;> rfl

/-- C10: without an explicit discount, an id of 45 or more gives a fallback
discount of at least 100% and, for a positive price, a discounted price that
is zero or negative; an id below 45 gives a fallback discount below 100%. -/
theorem fallback_discount_threshold (product : Product) (id : ℤ)
    (hnone : product.discount = none) :
    (45 ≤ id →
        1 ≤ getDiscountPercent id
          ∧ (0 < product.price → getDiscountedPrice product id ≤ 0))
      ∧ (id < 45 → getDiscountPercent id < 1) := by
  constructor
  · intro hid
    have hq : (45 : ℚ) ≤ (id : ℚ) := by exact_mod_cast hid
    have hp : 1 ≤ getDiscountPercent id := by
      simp only [getDiscountPercent]
      norm_num
      linarith
    refine ⟨hp, ?_⟩
    intro hprice
    have hpq : (0 : ℚ) < (product.price : ℚ) := by exact_mod_cast hprice
    unfold getDiscountedPrice
    rw [hnone, mathRound_eq_floor]
    simp only
    have hx : (product.price : ℚ) * (1 - getDiscountPercent id) ≤ 0 :=
      mul_nonpos_of_nonneg_of_nonpos hpq.le (by linarith)
    have : ⌊(product.price : ℚ) * (1 - getDiscountPercent id) + 1 / 2⌋ < 1 := by
      rw [Int.floor_lt]
      push_cast
      linarith
    omega
  · intro hid
    have hq : (id : ℚ) ≤ 44 := by
      have : id ≤ 44 := by omega
      exact_mod_cast this
    simp only [getDiscountPercent]
    norm_num
    linarith

theorem fallback_discount_threshold_witness :
    (1 ≤ getDiscountPercent 45
        ∧ getDiscountedPrice { id := 45, name := "Sample", price := 100, discount := none } 45 ≤ 0)
      ∧ getDiscountPercent 44 < 1 :=
  ⟨⟨((fallback_discount_threshold
        { id := 45, name := "Sample", price := 100, discount := none } 45 rfl).1 (by decide)).1,
     ((fallback_discount_threshold
        { id := 45, name := "Sample", price := 100, discount := none } 45 rfl).1 (by decide)).2
        (by decide)⟩,
   (fallback_discount_threshold
      { id := 44, name := "Sample", price := 100, discount := none } 44 rfl).2 (by decide)⟩

/-! ## Invoice -/

/-- C8: `generateInvoice` is a function of its four arguments alone, and its
text is the order header, the shipping block, `Items:`, then one line
`name - ₹price x qty = ₹subtotal` per cart item in cart order with
`subtotal = price * qty`, then the line with the total passed in. So the text
contains the shipping block, every line, every item name and the total. For
the cart of the order test (Crystal Necklace 500 x 1, Crystal Bracelet 300 x 2,
total 1100) it contains both names, the subtotals 500 and 600, and 1100. -/
theorem generateInvoice_contents (orderId : String) (cart : List CartItem) (total : ℤ)
    (shippingInfo : ShippingInfo) :
    generateInvoice orderId cart total shippingInfo
        = "Invoice for Order: " ++ orderId ++ "\n\n" ++ shippingBlock shippingInfo ++ "Items:\n"
            ++ String.join (cart.map (fun item =>
                invoiceLine item.name item.price item.qty (item.price * item.qty)))
            ++ "\nTotal: ₹" ++ toString total ++ "\n"
      ∧ containsText (generateInvoice orderId cart total shippingInfo) (shippingBlock shippingInfo)
      ∧ (∀ item ∈ cart,
          containsText (generateInvoice orderId cart total shippingInfo)
              (invoiceLine item.name item.price item.qty (item.price * item.qty))
            ∧ containsText (generateInvoice orderId cart total shippingInfo) item.name)
      ∧ containsText (generateInvoice orderId cart total shippingInfo) (toString total)
      ∧ (containsText
            (generateInvoice orderId
              [{ name := "Crystal Necklace", price := 500, qty := 1 },
               { name := "Crystal Bracelet", price := 300, qty := 2 }] 1100 shippingInfo)
            "Crystal Necklace - ₹500 x 1 = ₹500\n"
          ∧ containsText
            (generateInvoice orderId
              [{ name := "Crystal Necklace", price := 500, qty := 1 },
               { name := "Crystal Bracelet", price := 300, qty := 2 }] 1100 shippingInfo)
            "Crystal Bracelet - ₹300 x 2 = ₹600\n"
          ∧ containsText
            (generateInvoice orderId
              [{ name := "Crystal Necklace", price := 500, qty := 1 },
               { name := "Crystal Bracelet", price := 300, qty := 2 }] 1100 shippingInfo)
            "\nTotal: ₹1100\n") := by
  have hline : ∀ (c : List CartItem) (t : ℤ) (part : String),
      part ∈ c.map (fun item =>
          invoiceLine item.name item.price item.qty (item.price * item.qty)) →
        containsText (generateInvoice orderId c t shippingInfo) part := by
    intro c t part hpart
    rw [generateInvoice_eq]
    exact containsText_append_left _ (containsText_append_left _ (containsText_append_left _
      (containsText_append_right _ (containsText_join hpart))))
  have htotal : ∀ (c : List CartItem) (t : ℤ),
      containsText (generateInvoice orderId c t shippingInfo) ("\nTotal: ₹" ++ toString t ++ "\n") := by
    intro c t
    rw [generateInvoice_eq]
    have : ∀ a : String, a ++ "\nTotal: ₹" ++ toString t ++ "\n"
        = a ++ ("\nTotal: ₹" ++ toString t ++ "\n") := by
      intro a
      apply String.ext
      simp [String.data_append]
    rw [this]
    exact containsText_append_right _ (containsText_refl _)
  refine ⟨generateInvoice_eq orderId cart total shippingInfo, ?_, ?_, ?_, ?_, ?_, ?_⟩
  · rw [generateInvoice_eq]
    exact containsText_append_left _ (containsText_append_left _ (containsText_append_left _
      (containsText_append_left _ (containsText_append_left _
        (containsText_append_right _ (containsText_refl _))))))
  · intro item hitem
    have hmem : invoiceLine item.name item.price item.qty (item.price * item.qty)
        ∈ cart.map (fun item =>
            invoiceLine item.name item.price item.qty (item.price * item.qty)) :=
      List.mem_map.mpr ⟨item, hitem, rfl⟩
    exact ⟨hline cart total _ hmem,
      containsText_trans (hline cart total _ hmem) (invoiceLine_contains_name _ _ _ _)⟩
  · exact containsText_trans (htotal cart total)
      (containsText_append_left _ (containsText_append_right _ (containsText_refl _)))
  · exact hline _ 1100 _ (by decide)
  · exact hline _ 1100 _ (by decide)
  · exact htotal _ 1100

/-- C8 at the cart of the order test: the invoice contains the name of the
bracelet. -/
theorem generateInvoice_contents_witness :
    containsText
      (generateInvoice "order-1"
        [{ name := "Crystal Necklace", price := 500, qty := 1 },
         { name := "Crystal Bracelet", price := 300, qty := 2 }] 1100
        { name := "Test User", address := "123 Test Street", city := "Test City",
          state := "Test State", pincode := "123456", phone := "1234567890" })
      "Crystal Bracelet" :=
  ((generateInvoice_contents "order-1"
      [{ name := "Crystal Necklace", price := 500, qty := 1 },
       { name := "Crystal Bracelet", price := 300, qty := 2 }] 1100
      { name := "Test User", address := "123 Test Street", city := "Test City",
        state := "Test State", pincode := "123456", phone := "1234567890" }).2.2.1
    { name := "Crystal Bracelet", price := 300, qty := 2 } (by decide)).2

/-! ## Order placement -/

/-- C1: when the user lookup yields a user and the three inserts succeed, the
order handler leaves `orders` with exactly one more row, carrying the
generated order id and status `confirmed`; `order_items` with exactly
`cart.length` more rows, one per cart entry in cart order, each carrying
that order id and the looked-up username; and `order_status_history` with
exactly one more row, carrying that order id and status `confirmed`. -/
theorem placeOrder_persists (env : OrderEnv) (req : OrderRequest) (db : Store)
    (username : String) (huser : env.userLookup = Except.ok username)
    (horder : env.orderInsert = none) (hitems : env.itemsInsert = none)
    (hhistory : env.historyInsert = none) :
    (∃ row : OrderRow,
        (placeOrder env req db).store.orders = db.orders ++ [row]
          ∧ row.id = env.uuid ∧ row.status = "confirmed"
          ∧ row.user_id = req.userId ∧ row.username = username)
      ∧ (∃ rows : List OrderItemRow,
          (placeOrder env req db).store.order_items = db.order_items ++ rows
            ∧ rows.length = req.cart.length
            ∧ (∀ r ∈ rows, r.order_id = env.uuid ∧ r.username = username)
            ∧ rows.map (fun r => (r.product_name, r.price, r.quantity))
                = req.cart.map (fun item => (item.name, item.price, item.qty)))
      ∧ (∃ event : StatusRow,
          (placeOrder env req db).store.order_status_history
              = db.order_status_history ++ [event]
            ∧ event.order_id = env.uuid ∧ event.status = "confirmed")
      ∧ (placeOrder env req db).response
          = { status := 200,
              body := Body.order env.uuid
                (generateInvoice env.uuid req.cart req.total req.shippingInfo) } := by
  simp only [placeOrder, huser, horder, hitems, hhistory, insertRows]
  refine ⟨⟨_, rfl, rfl, rfl, rfl, rfl⟩, ⟨_, rfl, ?_, ?_, ?_⟩, ⟨_, rfl, rfl, rfl⟩, trivial⟩
  · simp
  · intro r hr
    obtain ⟨item, -, rfl⟩ := List.mem_map.mp hr
    exact ⟨rfl, rfl⟩
  · simp [List.map_map, Function.comp_def]

theorem placeOrder_persists_witness :
    (∃ row : OrderRow,
        (placeOrder
            { uuid := "order-1", userLookup := Except.ok "Test User", orderInsert := none,
              itemsInsert := none, historyInsert := none, sheets := none, mailUser := none,
              mailOwner := none }
            { userId := "7", email := "testuser@example.com",
              cart := [{ name := "Crystal Necklace", price := 500, qty := 1 },
                       { name := "Crystal Bracelet", price := 300, qty := 2 }],
              total := 1100,
              shippingInfo := { name := "Test User", address := "123 Test Street",
                                city := "Test City", state := "Test State",
                                pincode := "123456", phone := "1234567890" } }
            { orders := [], order_items := [], order_status_history := [] }).store.orders
          = [] ++ [row]
          ∧ row.id = "order-1" ∧ row.status = "confirmed"
          ∧ row.user_id = "7" ∧ row.username = "Test User") :=
  (placeOrder_persists
    { uuid := "order-1", userLookup := Except.ok "Test User", orderInsert := none,
      itemsInsert := none, historyInsert := none, sheets := none, mailUser := none,
      mailOwner := none }
    { userId := "7", email := "testuser@example.com",
      cart := [{ name := "Crystal Necklace", price := 500, qty := 1 },
               { name := "Crystal Bracelet", price := 300, qty := 2 }],
      total := 1100,
      shippingInfo := { name := "Test User", address := "123 Test Street",
                        city := "Test City", state := "Test State",
                        pincode := "123456", phone := "1234567890" } }
    { orders := [], order_items := [], order_status_history := [] }
    "Test User" rfl rfl rfl rfl).1

/-- C3, the claim refuted: a failed user lookup is answered with status 400 and
the lookup's own message, not with the 404 `User not found` that the
forgot-password handler gives for an unknown user; the answer is the very one
an insert failure with the same message gets. -/
theorem placeOrder_unknown_user_counterexample :
    (placeOrder
        { uuid := "order-1", userLookup := Except.error "no rows returned",
          orderInsert := none, itemsInsert := none, historyInsert := none, sheets := none,
          mailUser := none, mailOwner := none }
        { userId := "404", email := "nobody@example.com", cart := [], total := 0,
          shippingInfo := { name := "", address := "", city := "", state := "",
                            pincode := "", phone := "" } }
        { orders := [], order_items := [], order_status_history := [] }).response
        = { status := 400, body := Body.error "no rows returned" }
      ∧ (placeOrder
        { uuid := "order-1", userLookup := Except.error "no rows returned",
          orderInsert := none, itemsInsert := none, historyInsert := none, sheets := none,
          mailUser := none, mailOwner := none }
        { userId := "404", email := "nobody@example.com", cart := [], total := 0,
          shippingInfo := { name := "", address := "", city := "", state := "",
                            pincode := "", phone := "" } }
        { orders := [], order_items := [], order_status_history := [] }).response
        ≠ (forgotPassword
            { userLookup := Except.error "no rows returned", random := 0, now := 0,
              sendMail := none } "nobody@example.com" []).response
      ∧ (forgotPassword
            { userLookup := Except.error "no rows returned", random := 0, now := 0,
              sendMail := none } "nobody@example.com" []).response
        = { status := 404, body := Body.error "User not found" }
      ∧ (placeOrder
        { uuid := "order-1", userLookup := Except.error "no rows returned",
          orderInsert := none, itemsInsert := none, historyInsert := none, sheets := none,
          mailUser := none, mailOwner := none }
        { userId := "404", email := "nobody@example.com", cart := [], total := 0,
          shippingInfo := { name := "", address := "", city := "", state := "",
                            pincode := "", phone := "" } }
        { orders := [], order_items := [], order_status_history := [] }).response
        = (placeOrder
        { uuid := "order-1", userLookup := Except.ok "Test User",
          orderInsert := some "no rows returned", itemsInsert := none, historyInsert := none,
          sheets := none, mailUser := none, mailOwner := none }
        { userId := "404", email := "nobody@example.com", cart := [], total := 0,
          shippingInfo := { name := "", address := "", city := "", state := "",
                            pincode := "", phone := "" } }
        { orders := [], order_items := [], order_status_history := [] }).response := by
  refine ⟨rfl, ?_, rfl, rfl⟩
  decide

/-- C3 as amended: when the user lookup returns an error, the order handler
answers with status 400 and that error's message, and the three tables are as
they were: no order, order item or status event is created, and no mail is
sent. -/
theorem placeOrder_unknown_user (env : OrderEnv) (req : OrderRequest) (db : Store)
    (userError : String) (huser : env.userLookup = Except.error userError) :
    (placeOrder env req db).response = { status := 400, body := Body.error userError }
      ∧ (placeOrder env req db).store = db
      ∧ (placeOrder env req db).mails = [] := by
  simp [placeOrder, huser]

theorem placeOrder_unknown_user_witness :
    (placeOrder
        { uuid := "order-1", userLookup := Except.error "no rows returned",
          orderInsert := none, itemsInsert := none, historyInsert := none, sheets := none,
          mailUser := none, mailOwner := none }
        { userId := "404", email := "nobody@example.com",
          cart := [{ name := "Crystal Necklace", price := 500, qty := 1 }], total := 500,
          shippingInfo := { name := "", address := "", city := "", state := "",
                            pincode := "", phone := "" } }
        { orders := [], order_items := [], order_status_history := [] }).store
      = { orders := [], order_items := [], order_status_history := [] } :=
  (placeOrder_unknown_user
    { uuid := "order-1", userLookup := Except.error "no rows returned",
      orderInsert := none, itemsInsert := none, historyInsert := none, sheets := none,
      mailUser := none, mailOwner := none }
    { userId := "404", email := "nobody@example.com",
      cart := [{ name := "Crystal Necklace", price := 500, qty := 1 }], total := 500,
      shippingInfo := { name := "", address := "", city := "", state := "",
                        pincode := "", phone := "" } }
    { orders := [], order_items := [], order_status_history := [] }
    "no rows returned" rfl).2.1

/-- C6: the answer of the order handler, `{orderId, invoice}` or the error,
and the rows it leaves in the three tables are the same whatever the analytics
append and the two order mails do: two runs that differ only in whether those
three calls succeed or raise an error return the same thing. -/
theorem placeOrder_best_effort (env : OrderEnv) (req : OrderRequest) (db : Store)
    (sheets mailUser mailOwner : Option String) :
    (placeOrder { env with sheets := sheets, mailUser := mailUser, mailOwner := mailOwner }
        req db).response
        = (placeOrder env req db).response
      ∧ (placeOrder { env with sheets := sheets, mailUser := mailUser, mailOwner := mailOwner }
        req db).store
        = (placeOrder env req db).store := by
  obtain ⟨uuid, userLookup, orderInsert, itemsInsert, historyInsert, s, mu, mo⟩ := env
  cases userLookup with
  | error e => exact ⟨rfl, rfl⟩
  | ok username =>
    cases orderInsert with
    | some e => exact ⟨rfl, rfl⟩
    | none =>
      cases itemsInsert with
      | some e => exact ⟨rfl, rfl⟩
      | none =>
        cases historyInsert with
        | some e => exact ⟨rfl, rfl⟩
        | none => exact ⟨rfl, rfl⟩

/-! ## One-time codes -/

/-- C4: `verifyOtp` answers `OTP verified` exactly when the store holds an
entry for the email whose code is the given one and `now ≤ expires`; in every
other case it answers 400 `Invalid or expired OTP`. So after a forgot-password
run that found the user, verifying the issued code at any time up to `expires`
(ten minutes after the request), the request time included, succeeds; any
other code fails; and the issued code fails once `now` is past `expires`. -/
theorem verifyOtp_spec (otpStore : OtpStore) (email code : String) (now : ℤ) :
    (verifyOtp email code now otpStore = { status := 200, body := Body.message "OTP verified" }
        ↔ ∃ stored, otpGet otpStore email = some stored ∧ stored.otp = code
            ∧ now ≤ stored.expires)
      ∧ (¬ (∃ stored, otpGet otpStore email = some stored ∧ stored.otp = code
            ∧ now ≤ stored.expires)
          → verifyOtp email code now otpStore
              = { status := 400, body := Body.error "Invalid or expired OTP" })
      ∧ (∀ (env : ForgotEnv) (user : String), env.userLookup = Except.ok (some user) →
          ∃ issued : OtpEntry,
            otpGet (forgotPassword env email otpStore).otpStore email = some issued
              ∧ issued.otp = toString ⌊100000 + env.random * 900000⌋
              ∧ issued.expires = env.now + 600000
              ∧ verifyOtp email issued.otp env.now (forgotPassword env email otpStore).otpStore
                  = { status := 200, body := Body.message "OTP verified" }
              ∧ (∀ later : ℤ, later ≤ issued.expires →
                  verifyOtp email issued.otp later (forgotPassword env email otpStore).otpStore
                    = { status := 200, body := Body.message "OTP verified" })
              ∧ (∀ (wrong : String) (later : ℤ), wrong ≠ issued.otp →
                  verifyOtp email wrong later (forgotPassword env email otpStore).otpStore
                    = { status := 400, body := Body.error "Invalid or expired OTP" })
              ∧ (∀ later : ℤ, issued.expires < later →
                  verifyOtp email issued.otp later (forgotPassword env email otpStore).otpStore
                    = { status := 400, body := Body.error "Invalid or expired OTP" })) := by
  have hiff : ∀ (store : OtpStore) (c : String) (t : ℤ),
      (verifyOtp email c t store = { status := 200, body := Body.message "OTP verified" }
        ↔ ∃ stored, otpGet store email = some stored ∧ stored.otp = c ∧ t ≤ stored.expires) := by
    intro store c t
    unfold verifyOtp
    cases hget : otpGet store email with
    | none => simp
    | some stored =>
      by_cases hbad : stored.otp ≠ c ∨ t > stored.expires
      · have hno : ¬ (stored.otp = c ∧ t ≤ stored.expires) := by
          rintro ⟨h1, h2⟩
          rcases hbad with h | h
          · exact h h1
          · exact absurd h2 (not_le.mpr h)
        simp [hbad, hno]
      · have hyes : stored.otp = c ∧ t ≤ stored.expires := by
          push_neg at hbad
          exact hbad
        simp [hbad, hyes]
  have hfail : ∀ (store : OtpStore) (c : String) (t : ℤ),
      ¬ (∃ stored, otpGet store email = some stored ∧ stored.otp = c ∧ t ≤ stored.expires) →
        verifyOtp email c t store
          = { status := 400, body := Body.error "Invalid or expired OTP" } := by
    intro store c t hnot
    unfold verifyOtp
    cases hget : otpGet store email with
    | none => rfl
    | some stored =>
      have hbad : stored.otp ≠ c ∨ t > stored.expires := by
        by_contra hcon
        push_neg at hcon
        exact hnot ⟨stored, hget, hcon.1, hcon.2⟩
      simp [hbad]
  refine ⟨hiff otpStore code now, hfail otpStore code now, ?_⟩
  intro env user huser
  have hstore : otpGet (forgotPassword env email otpStore).otpStore email
      = some { otp := toString (mathFloor (100000 + env.random * 900000)),
               expires := env.now + 10 * 60 * 1000 } := by
    unfold forgotPassword
    rw [huser]
    cases env.sendMail <;> exact otpGet_otpSet _ _ _
  refine ⟨_, hstore, rfl, by norm_num, ?_, ?_, ?_, ?_⟩
  · exact (hiff _ _ _).mpr ⟨_, hstore, rfl, by simp⟩
  · intro later hlater
    exact (hiff _ _ _).mpr ⟨_, hstore, rfl, hlater⟩
  · intro wrong later hwrong
    apply hfail
    rintro ⟨stored, hget, hotp, -⟩
    rw [hstore] at hget
    cases hget
    exact hwrong hotp.symm
  · intro later hlater
    apply hfail
    rintro ⟨stored, hget, -, hle⟩
    rw [hstore] at hget
    cases hget
    exact absurd hle (not_le.mpr hlater)

theorem verifyOtp_spec_witness :
    verifyOtp "a@example.com" "400000" 1000
        (forgotPassword
          { userLookup := Except.ok (some "a@example.com"), random := 1 / 3, now := 1000,
            sendMail := none } "a@example.com" []).otpStore
        = { status := 200, body := Body.message "OTP verified" }
      ∧ verifyOtp "a@example.com" "400001" 1000
        (forgotPassword
          { userLookup := Except.ok (some "a@example.com"), random := 1 / 3, now := 1000,
            sendMail := none } "a@example.com" []).otpStore
        = { status := 400, body := Body.error "Invalid or expired OTP" }
      ∧ verifyOtp "a@example.com" "400000" 601001
        (forgotPassword
          { userLookup := Except.ok (some "a@example.com"), random := 1 / 3, now := 1000,
            sendMail := none } "a@example.com" []).otpStore
        = { status := 400, body := Body.error "Invalid or expired OTP" } := by
  obtain ⟨issued, hget, hotp, hexp, hnow, -, hwrong, hlate⟩ :=
    (verifyOtp_spec [] "a@example.com" "400000" 1000).2.2
      { userLookup := Except.ok (some "a@example.com"), random := 1 / 3, now := 1000,
        sendMail := none } "a@example.com" rfl
  have hcode : issued.otp = "400000" := by
    rw [hotp]
    norm_num
    rfl
  have hexp1 : issued.expires = 601000 := by
    rw [hexp]
    norm_num
  rw [hcode] at hnow hwrong hlate
  exact ⟨hnow, hwrong "400001" 1000 (by decide), hlate 601001 (by rw [hexp1]; decide)⟩

/-- C5: a successful `resetPassword` removes the stored code of the email, so
another `resetPassword` with the same code, at any time and whatever the
update would report, is answered 400 `Invalid or expired OTP`; and a
`resetPassword` that fails, on the code check or on the password update,
leaves the OTP store as it was. -/
theorem resetPassword_consumes (updateOutcome : Option String)
    (email otp newPassword : String) (now : ℤ) (otpStore : OtpStore) (users : List UserRow) :
    ((resetPassword updateOutcome email otp newPassword now otpStore users).response
          = { status := 200, body := Body.message "Password reset successfully" } →
        otpGet (resetPassword updateOutcome email otp newPassword now otpStore users).otpStore
            email = none
          ∧ ∀ (again : Option String) (password : String) (later : ℤ),
              (resetPassword again email otp password later
                (resetPassword updateOutcome email otp newPassword now otpStore users).otpStore
                (resetPassword updateOutcome email otp newPassword now otpStore users).users).response
                = { status := 400, body := Body.error "Invalid or expired OTP" })
      ∧ ((resetPassword updateOutcome email otp newPassword now otpStore users).response
          ≠ { status := 200, body := Body.message "Password reset successfully" } →
        (resetPassword updateOutcome email otp newPassword now otpStore users).otpStore
          = otpStore)
      ∧ ((resetPassword updateOutcome email otp newPassword now otpStore users).response
          = { status := 200, body := Body.message "Password reset successfully" }
        ↔ updateOutcome = none
            ∧ ∃ stored, otpGet otpStore email = some stored ∧ stored.otp = otp
                ∧ now ≤ stored.expires) := by
  have hnone : ∀ (again : Option String) (password : String) (later : ℤ) (store : OtpStore)
      (us : List UserRow), otpGet store email = none →
        (resetPassword again email otp password later store us).response
          = { status := 400, body := Body.error "Invalid or expired OTP" } := by
    intro again password later store us hget
    unfold resetPassword
    rw [hget]
  unfold resetPassword
  cases hget : otpGet otpStore email with
  | none => simp
  | some stored =>
    by_cases hbad : stored.otp ≠ otp ∨ now > stored.expires
    · have hno : ¬ (stored.otp = otp ∧ now ≤ stored.expires) := by
        rintro ⟨h1, h2⟩
        rcases hbad with h | h
        · exact h h1
        · exact absurd h2 (not_le.mpr h)
      simp [hbad, hno]
    · have hyes : stored.otp = otp ∧ now ≤ stored.expires := by
        push_neg at hbad
        exact hbad
      cases updateOutcome with
      | some e => simp [hbad, updatePassword]
      | none =>
        simp only [hbad, updatePassword, if_false]
        refine ⟨fun _ => ⟨otpGet_otpDelete _ _, ?_⟩, fun h => absurd rfl h, ?_⟩
        · intro again password later
          exact hnone again password later _ _ (otpGet_otpDelete _ _)
        · simp [hyes]

/-- C5 at a concrete store: after a successful reset the same code is refused,
and a reset whose password update fails leaves the store as it was. -/
theorem resetPassword_consumes_witness :
    (resetPassword none "a@example.com" "400000" "second" 2000
        (resetPassword none "a@example.com" "400000" "first" 1000
          [("a@example.com", { otp := "400000", expires := 601000 })]
          [{ name := "A", email := "a@example.com", password := "old" }]).otpStore
        (resetPassword none "a@example.com" "400000" "first" 1000
          [("a@example.com", { otp := "400000", expires := 601000 })]
          [{ name := "A", email := "a@example.com", password := "old" }]).users).response
        = { status := 400, body := Body.error "Invalid or expired OTP" }
      ∧ (resetPassword (some "connection lost") "a@example.com" "400000" "first" 1000
          [("a@example.com", { otp := "400000", expires := 601000 })]
          [{ name := "A", email := "a@example.com", password := "old" }]).otpStore
        = [("a@example.com", { otp := "400000", expires := 601000 })] :=
  ⟨((resetPassword_consumes none "a@example.com" "400000" "first" 1000
        [("a@example.com", { otp := "400000", expires := 601000 })]
        [{ name := "A", email := "a@example.com", password := "old" }]).1 (by decide)).2
      none "second" 2000,
   (resetPassword_consumes (some "connection lost") "a@example.com" "400000" "first" 1000
        [("a@example.com", { otp := "400000", expires := 601000 })]
        [{ name := "A", email := "a@example.com", password := "old" }]).2.1 (by decide)⟩

end Crystalloom
